import Mathlib

/-!
Verification development for the excel2pdf converter.

The Python sources embedded here are `excel2pdf.py` (width estimator,
column auto-fit, print-settings preparation, conversion driver) and
`excel_to_pdf/converter.py` (filename sanitizer, per-sheet export).

Modelling conventions:
* Python `float` cell values are modelled as exact decimal numbers
  `mant / 10 ^ dexp` (the values relevant to the claims, such as `1234.5`,
  are exactly representable; NaN, negative zero and the scientific-notation
  printing regime are outside the model).
* Python string formatting `f"{v:,.2f}"` rounds half-to-even at the given
  number of decimals; the embedding does the same, in exact integer
  arithmetic on the decimal representation.
* Exceptions are modelled explicitly: a boolean flag marks a place where
  the real code could raise, and the embedded function returns what the
  corresponding `except` handler (if any) produces.
-/

/-- Decides whether `needle` is a prefix of `hay` (character lists). -/
def listPrefixOf : List Char → List Char → Bool
  | [], _ => true
  | _ :: _, [] => false
  | a :: as, b :: bs => a == b && listPrefixOf as bs

/-- Decides whether `needle` occurs contiguously inside `hay`; embeds the
Python substring test `tok in nf`. -/
def listInfixOf (needle : List Char) : List Char → Bool
  | [] => needle.isEmpty
  | b :: bs => listPrefixOf needle (b :: bs) || listInfixOf needle bs

/-- Python `tok in nf` on strings. -/
def strContainsTok (nf tok : String) : Bool :=
  listInfixOf tok.data nf.data

/-- Python `str.lower()` (ASCII case fold suffices for format strings). -/
def pyLower (s : String) : String :=
  String.mk (s.data.map Char.toLower)

/-- Inserts a comma after every three characters of a reversed digit list;
helper for thousands grouping. -/
def group3R : List Char → List Char
  | a :: b :: c :: d :: rest => a :: b :: c :: ',' :: group3R (d :: rest)
  | l => l

/-- Renders a natural number in decimal with thousands separators, as
Python's `,` format specifier does. -/
def groupedNat (n : Nat) : String :=
  String.mk (group3R (Nat.toDigits 10 n).reverse).reverse

/-- Decimal digits of `n` left-padded with zeros to width `w`. -/
def padZeros (w : Nat) (n : Nat) : String :=
  String.mk (List.replicate (w - (Nat.repr n).length) '0') ++ Nat.repr n

/-- Python `str(v)` for an integer. -/
def intStr (n : Int) : String :=
  (if n < 0 then "-" else "") ++ Nat.repr n.natAbs

/-- Python `f"{v:,}"` for an integer: decimal with thousands separators. -/
def groupedIntStr (n : Int) : String :=
  (if n < 0 then "-" else "") ++ groupedNat n.natAbs

/-- Rounds the fraction `a / b` (with `b > 0`) to the nearest integer, ties
to even — the rounding Python's fixed-point float formatting performs. -/
def roundHEdiv (a : Int) (b : Nat) : Int :=
  let f := Int.ediv a b
  let r := a - f * b
  if 2 * r < (b : Int) then f
  else if (b : Int) < 2 * r then f + 1
  else if f % 2 = 0 then f else f + 1

/-- Python `f"{v:,.2f}"` on the exact decimal value `m / 10 ^ d`:
thousands-grouped, exactly two decimal digits, half-even rounding. -/
def fmtComma2 (m : Int) (d : Nat) : String :=
  let r := (roundHEdiv (m * 100) (10 ^ d)).natAbs
  (if m < 0 then "-" else "") ++ groupedNat (r / 100) ++ "." ++ padZeros 2 (r % 100)

/-- Python `f"{v:,.3f}"` on the exact decimal value `m / 10 ^ d`:
thousands-grouped, exactly three decimal digits, half-even rounding. -/
def fmtComma3 (m : Int) (d : Nat) : String :=
  let r := (roundHEdiv (m * 1000) (10 ^ d)).natAbs
  (if m < 0 then "-" else "") ++ groupedNat (r / 1000) ++ "." ++ padZeros 3 (r % 1000)

/-- Model of a Python float as an exact decimal `mant / 10 ^ dexp`. -/
structure PyFloat where
  mant : Int
  dexp : Nat
  deriving DecidableEq

/-- Strips trailing decimal zeros, mirroring the normalisation Python's
float `repr` applies before printing. -/
def normPF : Int → Nat → Int × Nat
  | m, 0 => (m, 0)
  | m, d + 1 => if m % 10 = 0 then normPF (m / 10) d else (m, d + 1)

/-- Python `str(v)` for a float (non-scientific regime): shortest decimal,
always keeping at least one digit after the point. -/
def floatRepr (f : PyFloat) : String :=
  let p := normPF f.mant f.dexp
  if p.2 = 0 then intStr p.1 ++ ".0"
  else
    (if p.1 < 0 then "-" else "") ++
      Nat.repr (p.1.natAbs / 10 ^ p.2) ++ "." ++ padZeros p.2 (p.1.natAbs % 10 ^ p.2)

/-- Python `f"{v:,}"` for a float: like `repr` but with a thousands-grouped
integer part. -/
def groupedFloatStr (f : PyFloat) : String :=
  let p := normPF f.mant f.dexp
  if p.2 = 0 then groupedIntStr p.1 ++ ".0"
  else
    (if p.1 < 0 then "-" else "") ++
      groupedNat (p.1.natAbs / 10 ^ p.2) ++ "." ++ padZeros p.2 (p.1.natAbs % 10 ^ p.2)

/-- Value of a worksheet cell: absent (`None`), int, float, or text. -/
inductive CellValue where
  | vnone
  | vint (n : Int)
  | vfloat (f : PyFloat)
  | vtext (s : String)
  deriving DecidableEq

/-- A worksheet cell as `_approx_display_len` sees it: its (1-based) column
index, value and number-format string (`Option.none` models a `None`
`number_format`).  `fmtRaises` is the embedding's explicit exception flag:
it marks the (in practice unreachable) event that the numeric-formatting
expression inside the `try` of `_approx_display_len` raises, which the
`except` handler turns into `len(str(v))`. -/
structure Cell where
  column : Nat
  value : CellValue
  numberFormat : Option String
  fmtRaises : Bool
  deriving DecidableEq

/-- Token list of the first branch of `_approx_display_len`
(`["0.00", "#,##0.00", "0.0"]`, excel2pdf.py line 33). -/
def tok2List : List String := ["0.00", "#,##0.00", "0.0"]

/-- Token list of the second branch of `_approx_display_len`
(`["0.000", "0.0000"]`, excel2pdf.py line 35). -/
def tok34List : List String := ["0.000", "0.0000"]

/-- True when the lowered number format contains a first-branch token. -/
def tok2Hit (nf : String) : Bool :=
  tok2List.any (fun t => strContainsTok nf t)

/-- True when the lowered number format contains a second-branch token. -/
def tok34Hit (nf : String) : Bool :=
  tok34List.any (fun t => strContainsTok nf t)

/-- Embeds `_approx_display_len` (excel2pdf.py lines 23-42): estimate of a
cell's displayed width.  `None` gives 0; a numeric value is formatted
according to the number-format tokens and the printed length is returned,
with `len(str(v))` as the `except` fallback; text gives `len(str(v))`. -/
def approxDisplayLen (c : Cell) : Nat :=
  match c.value with
  | CellValue.vnone => 0
  | CellValue.vint n =>
    if c.fmtRaises then (intStr n).length
    else
      let nf := pyLower (c.numberFormat.getD "")
      if tok2Hit nf then (fmtComma2 n 0).length
      else if tok34Hit nf then (fmtComma3 n 0).length
      else (groupedIntStr n).length
  | CellValue.vfloat f =>
    if c.fmtRaises then (floatRepr f).length
    else
      let nf := pyLower (c.numberFormat.getD "")
      if tok2Hit nf then (fmtComma2 f.mant f.dexp).length
      else if tok34Hit nf then (fmtComma3 f.mant f.dexp).length
      else (groupedFloatStr f).length
  | CellValue.vtext s => s.length

/-- A worksheet's cell grid, as `ws.iter_rows(values_only=False)` yields it:
a list of rows, each a list of cells. -/
def Worksheet := List (List Cell)

/-- All cells of a worksheet in iteration order (row-major). -/
def cellsOf (ws : Worksheet) : List Cell :=
  List.flatten ws

/-- True when the cell's value is not `None` (the `cell.value is None`
guard of `autofit_columns_openpyxl`, negated). -/
def populated (c : Cell) : Bool :=
  match c.value with
  | CellValue.vnone => false
  | _ => true

/-- Association-list lookup; embeds Python dict membership/access
(`col_idx in lengths`, `lengths[col_idx]`). -/
def alGet (k : Nat) : List (Nat × Nat) → Option Nat
  | [] => Option.none
  | p :: t => if k = p.1 then Option.some p.2 else alGet k t

/-- Association-list write; embeds Python dict assignment
(`lengths[col_idx] = L`): updates in place or appends a new entry. -/
def alSet (k v : Nat) : List (Nat × Nat) → List (Nat × Nat)
  | [] => [(k, v)]
  | p :: t => if p.1 = k then (k, v) :: t else p :: alSet k v t

/-- One iteration of the cell loop of `autofit_columns_openpyxl`
(excel2pdf.py lines 49-56): skip `None` values, estimate the display
length, and record it when positive and larger than the column's current
maximum. -/
def stepCell (lengths : List (Nat × Nat)) (c : Cell) : List (Nat × Nat) :=
  if populated c then
    let L := approxDisplayLen c
    if 0 < L then
      match alGet c.column lengths with
      | Option.none => alSet c.column L lengths
      | Option.some L0 => if L0 < L then alSet c.column L lengths else lengths
    else lengths
  else lengths

/-- The `lengths` dictionary after the full scan of the worksheet. -/
def lengthsOf (ws : Worksheet) : List (Nat × Nat) :=
  (cellsOf ws).foldl stepCell []

/-- Embeds the width-assignment loop of `autofit_columns_openpyxl`
(excel2pdf.py lines 58-61): one entry `(column, width)` per recorded
column, with `width = max(min_width, min(max_width, L + padding))`. -/
def autofitWidths (ws : Worksheet) (minW pad maxW : Nat) : List (Nat × Nat) :=
  (lengthsOf ws).map (fun p => (p.1, max minW (min maxW (p.2 + pad))))

/-- Effect of `autofit_columns_openpyxl` on the worksheet's column-width
table `orig`: columns with a recorded length get the clamped width, all
others keep their existing (possibly fractional) width. -/
def applyWidths (ws : Worksheet) (minW pad maxW : Nat) (orig : Nat → Option ℚ) :
    Nat → Option ℚ :=
  fun col =>
    match alGet col (autofitWidths ws minW pad maxW) with
    | Option.some w => Option.some (w : ℚ)
    | Option.none => orig col

/-- Maximum of two optional lengths (`Option.none` means no length yet). -/
def omax : Option Nat → Option Nat → Option Nat
  | Option.none, b => b
  | Option.some a, Option.none => Option.some a
  | Option.some a, Option.some b => Option.some (max a b)

/-- The length the cell contributes to column `col`: its estimated display
length when it sits in that column, is populated and estimates positive;
nothing otherwise. -/
def cellContrib (col : Nat) (c : Cell) : Option Nat :=
  if c.column == col && populated c && decide (0 < approxDisplayLen c) then
    Option.some (approxDisplayLen c)
  else Option.none

/-- Maximum positive estimated length of column `col` over a cell list,
when any positive length exists. -/
def maxPos (cs : List Cell) (col : Nat) : Option Nat :=
  cs.foldl (fun acc c => omax acc (cellContrib col c)) Option.none

/-- Maximum estimated display length over all populated cells of column
`col` (zero when the column has no populated cell). -/
def colMaxFold (cs : List Cell) (col : Nat) : Nat :=
  cs.foldl
    (fun m c => if c.column == col && populated c then max m (approxDisplayLen c) else m) 0

theorem alGet_alSet (k v c : Nat) (A : List (Nat × Nat)) :
    alGet c (alSet k v A) = if c = k then Option.some v else alGet c A := by
  induction A with
  | nil => simp [alSet, alGet]
  | cons p t ih =>
    by_cases hpk : p.1 = k
    · subst hpk
      by_cases hck : c = p.1 <;> simp [alSet, alGet, hck]
    · by_cases hck : c = k
      · subst hck
        simp [alSet, alGet, hpk, ih, Ne.symm hpk]
      · by_cases hcp : c = p.1 <;> simp [alSet, alGet, hpk, hcp, ih, hck]

theorem stepCell_alGet (A : List (Nat × Nat)) (c : Cell) (col : Nat) :
    alGet col (stepCell A c) = omax (alGet col A) (cellContrib col c) := by
  unfold stepCell cellContrib
  by_cases hp : populated c
  · by_cases hL : 0 < approxDisplayLen c
    · by_cases hcol : c.column = col
      · subst hcol
        simp only [hp, hL, beq_self_eq_true, Bool.true_and, decide_eq_true_eq, if_pos,
          Bool.and_true, Bool.and_self, decide_True, and_self]
        cases hA : alGet c.column A with
        | none => simp [alGet_alSet, hA, omax, hL]
        | some L0 =>
          by_cases hlt : L0 < approxDisplayLen c
          · simp [hlt, alGet_alSet, hA, omax, Nat.max_eq_right (Nat.le_of_lt hlt)]
          · simp [hlt, hA, omax, Nat.max_eq_left (Nat.le_of_not_lt hlt)]
      · have hbeq : (c.column == col) = false := beq_eq_false_iff_ne.mpr hcol
        have hcol' : ¬col = c.column := fun h => hcol h.symm
        simp only [hp, hL, hbeq, Bool.false_and, Bool.if_false_left, Bool.and_false,
          if_pos, decide_True, Bool.and_true, ite_true, Bool.false_eq_true, if_false]
        cases hA : alGet c.column A with
        | none =>
          simp only [alGet_alSet, hcol', ite_false, if_neg]
          cases alGet col A <;> simp [omax]
        | some L0 =>
          by_cases hlt : L0 < approxDisplayLen c <;>
            simp only [hlt, alGet_alSet, hcol', ite_false, ite_true, if_neg] <;>
            cases alGet col A <;> simp [omax]
    · simp only [hp, hL, ite_true, ite_false, if_neg, Bool.and_true, decide_eq_true_eq]
      have : (c.column == col && populated c && decide (0 < approxDisplayLen c)) = false := by
        simp [hL]
      simp [this, omax]
      cases alGet col A <;> simp [omax]
  · have hpb : populated c = false := by simpa using hp
    have : (c.column == col && populated c && decide (0 < approxDisplayLen c)) = false := by
      simp [hpb]
    simp [hpb, this]
    cases alGet col A <;> simp [omax]

theorem omax_none_right (o : Option Nat) : omax o Option.none = o := by
  cases o <;> rfl

theorem omax_assoc (a b c : Option Nat) : omax (omax a b) c = omax a (omax b c) := by
  cases a <;> cases b <;> cases c <;> simp [omax, Nat.max_assoc]

theorem foldl_stepCell_alGet (cs : List Cell) (A : List (Nat × Nat)) (col : Nat) :
    alGet col (cs.foldl stepCell A) =
      cs.foldl (fun acc c => omax acc (cellContrib col c)) (alGet col A) := by
  induction cs generalizing A with
  | nil => rfl
  | cons c cs ih =>
    simp only [List.foldl_cons]
    rw [ih, stepCell_alGet]

theorem foldl_omax_start (g : Cell → Option Nat) (cs : List Cell) (x : Option Nat) :
    cs.foldl (fun acc c => omax acc (g c)) x =
      omax x (cs.foldl (fun acc c => omax acc (g c)) Option.none) := by
  induction cs generalizing x with
  | nil => simp [omax_none_right]
  | cons c cs ih =>
    simp only [List.foldl_cons]
    rw [ih (omax x (g c)), ih (omax Option.none (g c))]
    generalize List.foldl (fun acc c => omax acc (g c)) Option.none cs = F
    cases x <;> cases g c <;> cases F <;> simp [omax, Nat.max_assoc]

theorem lengthsOf_alGet (ws : Worksheet) (col : Nat) :
    alGet col (lengthsOf ws) = maxPos (cellsOf ws) col := by
  unfold lengthsOf maxPos
  rw [foldl_stepCell_alGet]
  rfl

theorem alGet_mapClamp (f : Nat → Nat) (A : List (Nat × Nat)) (col : Nat) :
    alGet col (A.map (fun p => (p.1, f p.2))) = (alGet col A).map f := by
  induction A with
  | nil => rfl
  | cons p t ih =>
    by_cases h : col = p.1 <;> simp [alGet, h, ih]

theorem autofitWidths_alGet (ws : Worksheet) (minW pad maxW col : Nat) :
    alGet col (autofitWidths ws minW pad maxW) =
      (maxPos (cellsOf ws) col).map (fun L => max minW (min maxW (L + pad))) := by
  unfold autofitWidths
  rw [alGet_mapClamp (fun L => max minW (min maxW (L + pad))), lengthsOf_alGet]

theorem maxPos_getD_colMaxFold (cs : List Cell) (col : Nat) :
    (maxPos cs col).getD 0 = colMaxFold cs col := by
  unfold maxPos colMaxFold
  suffices h : ∀ (acc : Option Nat),
      (cs.foldl (fun acc c => omax acc (cellContrib col c)) acc).getD 0 =
        cs.foldl
          (fun m c => if c.column == col && populated c then max m (approxDisplayLen c) else m)
          (acc.getD 0) by
    exact h Option.none
  induction cs with
  | nil => intro acc; rfl
  | cons c cs ih =>
    intro acc
    simp only [List.foldl_cons]
    rw [ih]
    congr 1
    unfold cellContrib
    by_cases h1 : (c.column == col) = true
    · by_cases h2 : populated c = true
      · by_cases h3 : 0 < approxDisplayLen c
        · simp [h1, h2, h3]
          cases acc <;> simp [omax]
        · have h0 : approxDisplayLen c = 0 := Nat.eq_zero_of_not_pos h3
          simp [h1, h2, h3, h0, omax_none_right]
      · have h2' : populated c = false := by simpa using h2
        simp [h1, h2', omax_none_right]
    · have h1' : (c.column == col) = false := by simpa using h1
      simp [h1', omax_none_right]

theorem listPrefixOf_append (a b : List Char) :
    ∀ hay, listPrefixOf (a ++ b) hay = true → listPrefixOf a hay = true := by
  induction a with
  | nil => intro hay _; rfl
  | cons x xs ih =>
    intro hay h
    cases hay with
    | nil => simp [listPrefixOf] at h
    | cons y ys =>
      simp only [List.cons_append, listPrefixOf, Bool.and_eq_true] at h ⊢
      exact ⟨h.1, ih ys h.2⟩

theorem listInfixOf_append (a b : List Char) :
    ∀ hay, listInfixOf (a ++ b) hay = true → listInfixOf a hay = true := by
  intro hay
  induction hay with
  | nil =>
    intro h
    simp only [listInfixOf, List.isEmpty_eq_true, List.append_eq_nil] at h
    simp [listInfixOf, h.1]
  | cons y ys ih =>
    intro h
    simp only [listInfixOf, Bool.or_eq_true] at h ⊢
    cases h with
    | inl hp => exact Or.inl (listPrefixOf_append a b (y :: ys) hp)
    | inr ht => exact Or.inr (ih ht)

theorem tok34_imp_tok2 (nf : String) (h : tok34Hit nf = true) : tok2Hit nf = true := by
  unfold tok34Hit tok34List at h
  unfold tok2Hit tok2List
  simp only [List.any_cons, List.any_nil, Bool.or_eq_true, Bool.or_false,
    strContainsTok] at h ⊢
  cases h with
  | inl h3 =>
    exact Or.inl (listInfixOf_append ['0', '.', '0', '0'] ['0'] nf.data h3)
  | inr h4 =>
    exact Or.inl (listInfixOf_append ['0', '.', '0', '0'] ['0', '0'] nf.data h4)

/-- C1: for a numeric cell whose number format contains one of the
two-decimal tokens of the first branch (`"0.00"`, `"#,##0.00"`, `"0.0"`),
`_approx_display_len` returns the length of the value formatted with
thousands separators and exactly two decimal digits; in particular `1234.5`
with format `"0.00"` formats as `"1,234.50"` and yields 8. -/
theorem c1_two_decimal_estimate (nfo : Option String) (col : Nat)
    (h : tok2Hit (pyLower (nfo.getD "")) = true) :
    (∀ n : Int, approxDisplayLen ⟨col, CellValue.vint n, nfo, false⟩ = (fmtComma2 n 0).length) ∧
    (∀ f : PyFloat,
      approxDisplayLen ⟨col, CellValue.vfloat f, nfo, false⟩ = (fmtComma2 f.mant f.dexp).length) ∧
    fmtComma2 12345 1 = "1,234.50" ∧
    approxDisplayLen ⟨1, CellValue.vfloat ⟨12345, 1⟩, Option.some "0.00", false⟩ = 8 := by
  refine ⟨fun n => ?_, fun f => ?_, by decide, by decide⟩
  · simp [approxDisplayLen, h]
  · simp [approxDisplayLen, h]

theorem c1_two_decimal_estimate_w :
    approxDisplayLen ⟨1, CellValue.vfloat ⟨12345, 1⟩, Option.some "0.00", false⟩ = 8 :=
  (c1_two_decimal_estimate (Option.some "0.00") 1 (by decide)).2.2.2

/-- C2: contrary to the claim, the three/four-decimal branch of
`_approx_display_len` is unreachable: any number format containing
`"0.000"` or `"0.0000"` also contains the first-branch token `"0.00"`, so
the guard `tok34Hit nf && !tok2Hit nf` under which the `elif` executes is
identically false, and a value with format `"0.000"` is formatted with two
decimals (length 8 for 1234.5) instead of three (length 9). -/
theorem c2_three_decimal_branch_dead :
    (∀ nf : String, (tok34Hit nf && !tok2Hit nf) = false) ∧
    approxDisplayLen ⟨1, CellValue.vfloat ⟨12345, 1⟩, Option.some "0.000", false⟩ =
      (fmtComma2 12345 1).length ∧
    (fmtComma2 12345 1).length = 8 ∧ (fmtComma3 12345 1).length = 9 := by
  refine ⟨fun nf => ?_, by decide, by decide, by decide⟩
  cases h2 : tok2Hit nf with
  | true => simp [h2]
  | false =>
    cases h34 : tok34Hit nf with
    | true => exact absurd (tok34_imp_tok2 nf h34) (by simp [h2])
    | false => simp [h34]

/-- C5: `_approx_display_len` is total over every cell value and every
(possibly missing) number format, always returning a natural number: an
absent value gives 0, the result is non-negative, and when the numeric
formatting raises the `except` handler falls back to the plain string
length of the value. -/
theorem c5_estimator_total (v : CellValue) (nfo : Option String) (col : Nat) (b : Bool) :
    approxDisplayLen ⟨col, CellValue.vnone, nfo, b⟩ = 0 ∧
    (0 : Int) ≤ (approxDisplayLen ⟨col, v, nfo, b⟩ : Int) ∧
    (∀ n : Int, approxDisplayLen ⟨col, CellValue.vint n, nfo, true⟩ = (intStr n).length) ∧
    (∀ f : PyFloat, approxDisplayLen ⟨col, CellValue.vfloat f, nfo, true⟩ = (floatRepr f).length) := by
  refine ⟨rfl, Int.natCast_nonneg _, fun n => ?_, fun f => ?_⟩ <;> simp [approxDisplayLen]

/-- C6 counterexample: a numeric cell whose estimation raises inside the
formatting expression does NOT contribute "no length": the fallback
`len(str(v))` (here 6 for `1234.5`) is contributed, so the column receives
a width entry (8) instead of none. -/
theorem c6_error_swallow_cex :
    approxDisplayLen ⟨1, CellValue.vfloat ⟨12345, 1⟩, Option.some "0.00", true⟩ = 6 ∧
    autofitWidths [[⟨1, CellValue.vfloat ⟨12345, 1⟩, Option.some "0.00", true⟩]] 8 2 120 =
      [(1, 8)] ∧
    ([(1, 8)] : List (Nat × Nat)) ≠ [] := by
  refine ⟨by decide, by decide, by decide⟩

/-- C6 amended: an error raised while formatting a numeric cell is
swallowed inside `_approx_display_len`, which falls back to the plain
string length of the value; during the auto-fit pass the cell therefore
behaves exactly like a text cell holding `str(v)` — it contributes its
plain string length (not nothing), and the processing of all other cells
is unaffected. -/
theorem c6_error_fallback_contributes (m : Int) (d : Nat) (n : Int) (nfo : Option String)
    (col : Nat) (lengths : List (Nat × Nat)) :
    approxDisplayLen ⟨col, CellValue.vfloat ⟨m, d⟩, nfo, true⟩ = (floatRepr ⟨m, d⟩).length ∧
    stepCell lengths ⟨col, CellValue.vfloat ⟨m, d⟩, nfo, true⟩ =
      stepCell lengths ⟨col, CellValue.vtext (floatRepr ⟨m, d⟩), nfo, false⟩ ∧
    approxDisplayLen ⟨col, CellValue.vint n, nfo, true⟩ = (intStr n).length ∧
    stepCell lengths ⟨col, CellValue.vint n, nfo, true⟩ =
      stepCell lengths ⟨col, CellValue.vtext (intStr n), nfo, false⟩ := by
  refine ⟨by simp [approxDisplayLen], ?_, by simp [approxDisplayLen], ?_⟩ <;>
    simp [stepCell, populated, approxDisplayLen]

theorem maxPos_none_of_contribs (cs : List Cell) (col : Nat)
    (h : ∀ c ∈ cs, cellContrib col c = Option.none) : maxPos cs col = Option.none := by
  unfold maxPos
  induction cs with
  | nil => rfl
  | cons c cs ih =>
    simp only [List.foldl_cons]
    have hc : cellContrib col c = Option.none := h c (List.mem_cons_self c cs)
    rw [hc]
    exact ih (fun c' hc' => h c' (List.mem_cons_of_mem c hc'))

/-- C3 counterexample: a worksheet whose only cell is populated (value the
empty text, not absent) in column 1, yet `autofit_columns_openpyxl`
produces no width entry at all — the claim demands the column's width be
set to `max(8, min(120, 0 + 2)) = 8`. -/
theorem c3_populated_zero_len_cex :
    populated ⟨1, CellValue.vtext "", Option.none, false⟩ = true ∧
    autofitWidths [[⟨1, CellValue.vtext "", Option.none, false⟩]] 8 2 120 = [] := by
  exact ⟨rfl, by decide⟩

/-- C3 amended: with min_width=8, padding=2, max_width=120, every column
containing at least one populated cell of positive estimated length gets
width `max(8, min(120, maxLen + 2))` where `maxLen` is the maximum
estimated display length over the column's populated cells; a column with
no such cell (in particular one with no populated cell at all, but also
one whose populated cells all estimate to length 0) receives no entry and
keeps its existing width. -/
theorem c3_autofit_clamped_widths (ws : Worksheet) (col : Nat) (orig : Nat → Option ℚ) :
    (∀ m, maxPos (cellsOf ws) col = Option.some m →
      alGet col (autofitWidths ws 8 2 120) =
        Option.some (max 8 (min 120 (colMaxFold (cellsOf ws) col + 2)))) ∧
    (maxPos (cellsOf ws) col = Option.none →
      alGet col (autofitWidths ws 8 2 120) = Option.none ∧
      applyWidths ws 8 2 120 orig col = orig col) := by
  constructor
  · intro m hm
    have hmc : colMaxFold (cellsOf ws) col = m := by
      rw [← maxPos_getD_colMaxFold, hm]
      rfl
    rw [autofitWidths_alGet, hm, hmc]
    rfl
  · intro hm
    have h1 : alGet col (autofitWidths ws 8 2 120) = Option.none := by
      rw [autofitWidths_alGet, hm]
      rfl
    refine ⟨h1, ?_⟩
    unfold applyWidths
    rw [h1]

theorem c3_autofit_clamped_widths_w :
    alGet 1 (autofitWidths
      [[⟨1, CellValue.vtext "abc", Option.none, false⟩],
       [⟨1, CellValue.vtext "abcdefg", Option.none, false⟩],
       [⟨1, CellValue.vtext "abcde", Option.none, false⟩]] 8 2 120) = Option.some 9 := by
  have h := (c3_autofit_clamped_widths
      [[⟨1, CellValue.vtext "abc", Option.none, false⟩],
       [⟨1, CellValue.vtext "abcdefg", Option.none, false⟩],
       [⟨1, CellValue.vtext "abcde", Option.none, false⟩]] 1 (fun _ => Option.none)).1 7
    (by decide)
  rw [h]
  decide

/-- C10: a populated cell whose estimated display length is 0 (such as a
cell holding the empty string) contributes nothing in the auto-fit pass
— `stepCell` leaves the lengths dictionary untouched — and a column all
of whose populated cells estimate to 0 receives no width entry and keeps
its existing width, exactly as if it were empty. -/
theorem c10_zero_length_cells_ignored :
    (∀ (lengths : List (Nat × Nat)) (c : Cell),
      approxDisplayLen c = 0 → stepCell lengths c = lengths) ∧
    (∀ (ws : Worksheet) (col : Nat) (orig : Nat → Option ℚ),
      ((cellsOf ws).all
        (fun c => !(c.column == col && populated c) || (approxDisplayLen c == 0))) = true →
      alGet col (autofitWidths ws 8 2 120) = Option.none ∧
      applyWidths ws 8 2 120 orig col = orig col) := by
  constructor
  · intro lengths c h
    unfold stepCell
    rw [h]
    simp
  · intro ws col orig hall
    have hm : maxPos (cellsOf ws) col = Option.none := by
      apply maxPos_none_of_contribs
      intro c hc
      have := (List.all_eq_true.mp hall) c hc
      unfold cellContrib
      rcases Bool.or_eq_true_iff.mp this with hneg | hzero
      · rw [if_neg]
        intro habs
        rw [Bool.and_eq_true, Bool.and_eq_true] at habs
        rw [Bool.not_eq_true'] at hneg
        rw [habs.1.1, habs.1.2] at hneg
        simp at hneg
      · rw [if_neg]
        intro habs
        rw [Bool.and_eq_true] at habs
        have h0 : approxDisplayLen c = 0 := beq_iff_eq.mp hzero
        have := of_decide_eq_true habs.2
        omega
    have h1 : alGet col (autofitWidths ws 8 2 120) = Option.none := by
      rw [autofitWidths_alGet, hm]
      rfl
    refine ⟨h1, ?_⟩
    unfold applyWidths
    rw [h1]

theorem c10_zero_length_cells_ignored_w :
    alGet 1 (autofitWidths [[⟨1, CellValue.vtext "", Option.none, false⟩]] 8 2 120) =
      Option.none ∧
    applyWidths [[⟨1, CellValue.vtext "", Option.none, false⟩]] 8 2 120
      (fun _ => Option.some (13 : ℚ)) 1 = Option.some (13 : ℚ) :=
  c10_zero_length_cells_ignored.2 [[⟨1, CellValue.vtext "", Option.none, false⟩]] 1
    (fun _ => Option.some (13 : ℚ)) (by decide)

/-- The characters of the regex character class `[<>:"/\\|?*]`
(converter.py line 6). -/
def ILLEGALCHARS : List Char := ['<', '>', ':', '"', '/', '\\', '|', '?', '*']

/-- Embeds `ILLEGAL_RE.sub(replacement, name)`: the regex matches single
characters of the class, so substitution replaces each illegal character
with the replacement string and keeps every other character. -/
def subIllegal (rep : String) : List Char → String
  | [] => ""
  | c :: t => (if ILLEGALCHARS.contains c then rep else String.mk [c]) ++ subIllegal rep t

/-- Embeds `safe_name` (converter.py lines 9-10). -/
def safe_name (name : String) (replacement : String := "_") : String :=
  subIllegal replacement name.data

theorem subIllegal_underscore (l : List Char) :
    (subIllegal "_" l).data =
      l.map (fun c => if ILLEGALCHARS.contains c then '_' else c) := by
  induction l with
  | nil => rfl
  | cons c t ih =>
    by_cases h : c ∈ ILLEGALCHARS <;>
      simp [subIllegal, h, String.data_append, ih]

/-- C9: `safe_name` replaces each filesystem-illegal character with an
underscore and leaves every other character unchanged, so the output has
the same length as the input; in particular `"a/b:c"` becomes `"a_b_c"`. -/
theorem c9_safe_name_sanitizes (s : String) :
    (safe_name s).data =
      s.data.map (fun c => if ILLEGALCHARS.contains c then '_' else c) ∧
    (safe_name s).length = s.length ∧
    safe_name "a/b:c" = "a_b_c" := by
  refine ⟨subIllegal_underscore s.data, ?_, by decide⟩
  show (subIllegal "_" s.data).data.length = s.data.length
  rw [subIllegal_underscore s.data]
  exact List.length_map _ _

/-- A filesystem path in pathlib's decomposition: parent directory, stem
and suffix (the extension including its dot, or empty). -/
structure PathM where
  dir : String
  stem : String
  suffix : String
  deriving DecidableEq

/-- A pathlib suffix is canonical: empty or dot-led. -/
def dotLed (s : String) : Bool :=
  s.data.head?.getD '.' == '.'

/-- File name of a path: stem plus suffix. -/
def pathName (p : PathM) : String :=
  p.stem ++ p.suffix

/-- The temp-copy path `Path(tempfile.gettempdir()) / (xlsx_path.stem +
"_print_ready.xlsx")` (excel2pdf.py line 88). -/
def printReadyPath (tmpdir : String) (p : PathM) : PathM :=
  ⟨tmpdir, p.stem ++ "_print_ready", ".xlsx"⟩

/-- Per-worksheet print settings and cell data, as `ensure_print_settings`
manipulates them through openpyxl. -/
structure SheetData where
  cells : Worksheet
  gridLines : Bool
  headings : Bool
  fitToWidth : Int
  fitToHeight : Int
  orientation : String
  colWidths : Nat → Option ℚ

/-- Per-worksheet body of `ensure_print_settings` (excel2pdf.py lines
66-85): auto-fit column widths (defaults 8/2/120), show gridlines and
headings, fit to `max(1, fitwide)` pages wide and unbounded height, set
orientation. -/
def transformSheet (landscape : Bool) (fitwide : Int) (s : SheetData) : SheetData :=
  { cells := s.cells
    colWidths := applyWidths s.cells 8 2 120 s.colWidths
    gridLines := true
    headings := true
    fitToWidth := max 1 fitwide
    fitToHeight := 0
    orientation := if landscape then "landscape" else "portrait" }

/-- A workbook: its worksheets in order. -/
structure WorkbookM where
  sheets : List SheetData

/-- Embeds `ensure_print_settings` (excel2pdf.py lines 63-90) over an
explicit file store `fs`: `wb` is the workbook loaded from `p`; every
worksheet is transformed, and the result is saved to the temp-copy path,
which is returned together with the updated store. -/
def ensurePrintSettings (tmpdir : String) (p : PathM) (wb : WorkbookM)
    (fs : PathM → Option WorkbookM) (landscape : Bool) (fitwide : Int) :
    PathM × (PathM → Option WorkbookM) :=
  let wb2 : WorkbookM := ⟨wb.sheets.map (transformSheet landscape fitwide)⟩
  let tmp := printReadyPath tmpdir p
  (tmp, fun q => if q = tmp then Option.some wb2 else fs q)

/-- C7: `ensure_print_settings` writes only to the fresh path
`tempdir/(stem + "_print_ready.xlsx")` and returns it; the returned path
never names the input file (its file name always differs from the input's,
given pathlib's canonical stem/suffix split), so the original file's
content is unchanged. -/
theorem c7_writes_fresh_temp_copy (tmpdir : String) (p : PathM) (wb : WorkbookM)
    (fs : PathM → Option WorkbookM) (landscape : Bool) (fitwide : Int)
    (hcanon : dotLed p.suffix = true) :
    (ensurePrintSettings tmpdir p wb fs landscape fitwide).1 =
      ⟨tmpdir, p.stem ++ "_print_ready", ".xlsx"⟩ ∧
    pathName (ensurePrintSettings tmpdir p wb fs landscape fitwide).1 ≠ pathName p ∧
    (ensurePrintSettings tmpdir p wb fs landscape fitwide).2 p = fs p ∧
    (∀ q, q ≠ (ensurePrintSettings tmpdir p wb fs landscape fitwide).1 →
      (ensurePrintSettings tmpdir p wb fs landscape fitwide).2 q = fs q) := by
  have e1 : (ensurePrintSettings tmpdir p wb fs landscape fitwide).1 =
      printReadyPath tmpdir p := rfl
  have e2 : (ensurePrintSettings tmpdir p wb fs landscape fitwide).2 =
      fun q => if q = printReadyPath tmpdir p
        then Option.some ⟨wb.sheets.map (transformSheet landscape fitwide)⟩
        else fs q := rfl
  refine ⟨e1, ?_, ?_, ?_⟩
  · rw [e1]
    intro heq
    have hdata := congrArg String.data heq
    simp only [pathName, printReadyPath, String.data_append, List.append_assoc] at hdata
    have hsfx := List.append_cancel_left hdata
    have hhd : p.suffix.data.head? = Option.some '_' := by
      rw [← hsfx]
      decide
    unfold dotLed at hcanon
    rw [hhd] at hcanon
    exact absurd hcanon (by decide)
  · have hne : p ≠ printReadyPath tmpdir p := by
      intro h
      have hlen := congrArg (fun q => q.stem.data.length) h
      simp only [printReadyPath, String.data_append, List.length_append] at hlen
      simp at hlen
    simp only [e2]
    rw [if_neg hne]
  · intro q hq
    rw [e1] at hq
    simp only [e2]
    rw [if_neg hq]

theorem c7_writes_fresh_temp_copy_w :
    (ensurePrintSettings "/tmp" ⟨"/docs", "book", ".xlsx"⟩ ⟨[]⟩
        (fun _ => Option.none) false 1).1 =
      ⟨"/tmp", "book_print_ready", ".xlsx"⟩ ∧
    pathName (ensurePrintSettings "/tmp" ⟨"/docs", "book", ".xlsx"⟩ ⟨[]⟩
        (fun _ => Option.none) false 1).1 ≠ pathName ⟨"/docs", "book", ".xlsx"⟩ := by
  have h := c7_writes_fresh_temp_copy "/tmp" ⟨"/docs", "book", ".xlsx"⟩ ⟨[]⟩
    (fun _ => Option.none) false 1 (by decide)
  exact ⟨h.1, h.2.1⟩

/-- Observable steps of `convert_one` (excel2pdf.py lines 161-170). -/
inductive ConvEv where
  | evPrepare (prepared : PathM)
  | evTryExcel (src dst : PathM)
  | evTryLibre (src dst : PathM)
  deriving DecidableEq

/-- Discriminates the LibreOffice-attempt event. -/
def isTryLibre : ConvEv → Bool
  | ConvEv.evTryLibre _ _ => true
  | _ => false

/-- Discriminates the Excel-attempt event. -/
def isTryExcel : ConvEv → Bool
  | ConvEv.evTryExcel _ _ => true
  | _ => false

/-- Message of the `RuntimeError` raised when both exporters fail
(excel2pdf.py line 170). -/
def convErrMsg : String := "Could not export to PDF via Excel or LibreOffice."

/-- Message standing for the exception `openpyxl.load_workbook` raises
inside `ensure_print_settings` (excel2pdf.py line 65): it fails for every
accepted `.xls` input (openpyxl cannot read that format) and for missing
or corrupt files, and `convert_one` has no handler around the call, so
the exception propagates out of `convert_one`. -/
def loadErrMsg : String := "openpyxl could not load the workbook."

/-- Embeds `convert_one` (excel2pdf.py lines 161-170): prepare the print
settings into a temp copy, try the xlwings/Excel exporter on it, and only
if that reported failure try LibreOffice; raise when both fail.
`loadOk` models whether `load_workbook` inside `ensure_print_settings`
succeeds; when it raises, nothing is written, neither exporter runs, and
the exception propagates (empty trace, `loadErrMsg` outcome).
`excelOk`/`libreOk` are the boolean results the two exporters return.
Returns the event trace together with the outcome. -/
def convertOne (tmpdir : String) (xlsx outPdf : PathM) (wb : WorkbookM)
    (fs : PathM → Option WorkbookM) (landscape : Bool) (fitwide : Int)
    (loadOk excelOk libreOk : Bool) : List ConvEv × Except String Unit :=
  if !loadOk then ([], Except.error loadErrMsg)
  else
    let prep := ensurePrintSettings tmpdir xlsx wb fs landscape fitwide
    let prepared := prep.1
    let base := [ConvEv.evPrepare prepared, ConvEv.evTryExcel prepared outPdf]
    if excelOk then (base, Except.ok ())
    else if libreOk then (base ++ [ConvEv.evTryLibre prepared outPdf], Except.ok ())
    else (base ++ [ConvEv.evTryLibre prepared outPdf], Except.error convErrMsg)

/-- C4 counterexample: for an accepted `.xls` input the prepare step's
workbook load raises, so `convert_one` raises even though both exporters
would have succeeded (`excelOk = libreOk = true`) and neither of them is
ever attempted — refuting the only-if direction of "raises an error if
and only if both renderers fail". -/
theorem c4_prepare_raise_cex :
    (convertOne "/tmp" ⟨"/docs", "book", ".xls"⟩ ⟨"/docs", "book", ".pdf"⟩ ⟨[]⟩
        (fun _ => Option.none) false 1 false true true).2 = Except.error loadErrMsg ∧
    ((convertOne "/tmp" ⟨"/docs", "book", ".xls"⟩ ⟨"/docs", "book", ".pdf"⟩ ⟨[]⟩
        (fun _ => Option.none) false 1 false true true).1.any isTryExcel) = false ∧
    ((convertOne "/tmp" ⟨"/docs", "book", ".xls"⟩ ⟨"/docs", "book", ".pdf"⟩ ⟨[]⟩
        (fun _ => Option.none) false 1 false true true).1.any isTryLibre) = false := by
  refine ⟨rfl, rfl, rfl⟩

/-- C4 amended: `convert_one` first attempts to prepare the working copy;
an exception raised by the workbook load inside the prepare step (as for
every accepted `.xls` input, or a missing/corrupt file) propagates out of
`convert_one` and neither exporter is attempted.  When the preparation
succeeds, export is attempted via the Excel exporter on the prepared
copy; the LibreOffice exporter is attempted exactly when the Excel
exporter failed or was unavailable; and overall `convert_one` raises an
error exactly when the preparation raised or both exporters failed. -/
theorem c4_convert_one_fallback (tmpdir : String) (xlsx outPdf : PathM) (wb : WorkbookM)
    (fs : PathM → Option WorkbookM) (landscape : Bool) (fitwide : Int)
    (loadOk excelOk libreOk : Bool) :
    (loadOk = false →
      convertOne tmpdir xlsx outPdf wb fs landscape fitwide loadOk excelOk libreOk =
        ([], Except.error loadErrMsg)) ∧
    (loadOk = true →
      (convertOne tmpdir xlsx outPdf wb fs landscape fitwide loadOk excelOk libreOk).1.take 2 =
        [ConvEv.evPrepare (printReadyPath tmpdir xlsx),
         ConvEv.evTryExcel (printReadyPath tmpdir xlsx) outPdf] ∧
      (((convertOne tmpdir xlsx outPdf wb fs landscape fitwide loadOk excelOk libreOk).1.any
          isTryLibre) = true ↔ excelOk = false) ∧
      ((convertOne tmpdir xlsx outPdf wb fs landscape fitwide loadOk excelOk libreOk).2 =
          Except.error convErrMsg ↔ (excelOk = false ∧ libreOk = false)) ∧
      ((convertOne tmpdir xlsx outPdf wb fs landscape fitwide loadOk excelOk libreOk).2 =
          Except.ok () ↔ (excelOk = true ∨ libreOk = true))) ∧
    ((∃ e, (convertOne tmpdir xlsx outPdf wb fs landscape fitwide loadOk excelOk libreOk).2 =
        Except.error e) ↔ (loadOk = false ∨ (excelOk = false ∧ libreOk = false))) := by
  cases loadOk <;> cases excelOk <;> cases libreOk <;>
    simp [convertOne, ensurePrintSettings, printReadyPath, isTryLibre]

theorem c4_convert_one_fallback_w :
    (convertOne "/tmp" ⟨"/docs", "book", ".xlsx"⟩ ⟨"/docs", "book", ".pdf"⟩ ⟨[]⟩
        (fun _ => Option.none) false 1 true false false).2 = Except.error convErrMsg :=
  (((c4_convert_one_fallback "/tmp" ⟨"/docs", "book", ".xlsx"⟩ ⟨"/docs", "book", ".pdf"⟩ ⟨[]⟩
      (fun _ => Option.none) false 1 true false false).2.1 rfl).2.2.1).mpr ⟨rfl, rfl⟩

/-- A worksheet as the per-sheet exporter sees it, with the embedding's
explicit failure flags: `visReadOk` — reading `sht.api.Visible` succeeds
(the `except` there defaults to visible); `exportOk` — the per-sheet
`book.to_pdf` call succeeds (its `except` logs and continues);
`nameReadOk` — reading `sht.name` on line 83 succeeds (there is no handler
there, so a failure propagates out of the routine). -/
structure SheetX where
  name : String
  visReadOk : Bool
  visible : Bool
  exportOk : Bool
  nameReadOk : Bool
  deriving DecidableEq

/-- Visibility as the code computes it (converter.py lines 70-73). -/
def effVisible (s : SheetX) : Bool :=
  if s.visReadOk then s.visible else true

/-- The sheet loop of `export_workbook_sheets_to_pdf` (converter.py lines
68-91): returns the created PDF paths (meaningful when no exception
propagates) and whether an uncaught exception escaped the loop. -/
def loopSheets (outDir stem : String) (includeHidden : Bool) :
    List SheetX → List String × Bool
  | [] => ([], false)
  | s :: rest =>
    if !includeHidden && !effVisible s then loopSheets outDir stem includeHidden rest
    else if !s.nameReadOk then ([], true)
    else
      let pdfPath := outDir ++ "/" ++ safe_name stem ++ " - " ++ safe_name s.name ++ ".pdf"
      let r := loopSheets outDir stem includeHidden rest
      (if s.exportOk then pdfPath :: r.1 else r.1, r.2)

/-- Outcome of `export_workbook_sheets_to_pdf`: the created paths, whether
`book.close()` was executed, whether `app.quit()` was executed, and
whether an exception propagated out. -/
structure ExportResult where
  created : List String
  bookClosed : Bool
  appQuit : Bool
  raised : Bool
  deriving DecidableEq

/-- Embeds `export_workbook_sheets_to_pdf` (converter.py lines 43-97) from
the point the automation engine is started: the body (open, sheet loop,
`book.close()`) runs inside `try`, and `app.quit()` runs in `finally`.
`openOk` is whether `app.books.open` succeeds; on any exception the rest
of the body — including `book.close()` — is skipped and the exception is
re-raised after the `finally`. -/
def exportWorkbookSheetsToPdf (openOk : Bool) (sheets : List SheetX)
    (includeHidden : Bool) (outDir stem : String) : ExportResult :=
  if !openOk then ⟨[], false, true, true⟩
  else
    let r := loopSheets outDir stem includeHidden sheets
    if r.2 then ⟨r.1, false, true, true⟩
    else ⟨r.1, true, true, false⟩

/-- C8 counterexample: with the workbook opened and a single visible sheet
whose `sht.name` read raises (an exception point outside the per-sheet
`try`), the routine re-raises after `finally`: `app.quit()` runs but
`book.close()` does not — the workbook handle is not closed on every
exception path, contrary to the claim. -/
theorem c8_close_skipped_on_exception_cex :
    ExportResult.bookClosed
        (exportWorkbookSheetsToPdf true [⟨"S1", true, true, true, false⟩] false "out" "book") =
      false ∧
    ExportResult.raised
        (exportWorkbookSheetsToPdf true [⟨"S1", true, true, true, false⟩] false "out" "book") =
      true ∧
    ExportResult.appQuit
        (exportWorkbookSheetsToPdf true [⟨"S1", true, true, true, false⟩] false "out" "book") =
      true := by
  refine ⟨by decide, by decide, by decide⟩

theorem loopSheets_no_raise (outDir stem : String) (includeHidden : Bool) :
    ∀ sheets : List SheetX, (∀ s ∈ sheets, s.nameReadOk = true) →
      (loopSheets outDir stem includeHidden sheets).2 = false := by
  intro sheets
  induction sheets with
  | nil => intro _; rfl
  | cons s rest ih =>
    intro h
    have hs : s.nameReadOk = true := h s (List.mem_cons_self s rest)
    have hrest := ih (fun x hx => h x (List.mem_cons_of_mem s hx))
    unfold loopSheets
    by_cases hskip : (!includeHidden && !effVisible s) = true
    · rw [if_pos hskip]
      exact hrest
    · rw [if_neg hskip, hs]
      simp [hrest]

theorem exportRun_eq (openOk : Bool) (sheets : List SheetX) (includeHidden : Bool)
    (outDir stem : String) :
    exportWorkbookSheetsToPdf openOk sheets includeHidden outDir stem =
      if openOk then
        (if (loopSheets outDir stem includeHidden sheets).2 then
          ⟨(loopSheets outDir stem includeHidden sheets).1, false, true, true⟩
        else ⟨(loopSheets outDir stem includeHidden sheets).1, true, true, false⟩)
      else ⟨[], false, true, true⟩ := by
  unfold exportWorkbookSheetsToPdf
  cases openOk <;> simp

/-- C8 amended: the automation engine process is terminated (`app.quit()`
in `finally`) unconditionally before the routine returns; the workbook
handle is closed exactly when no exception propagates out of the body —
in particular per-sheet export failures are caught, so when the open
succeeds and no sheet-name read raises, the routine raises nothing and
does close the workbook; but on a propagating exception the close is
skipped (only the engine termination runs). -/
theorem c8_resource_discipline (openOk : Bool) (sheets : List SheetX)
    (includeHidden : Bool) (outDir stem : String) :
    (exportWorkbookSheetsToPdf openOk sheets includeHidden outDir stem).appQuit = true ∧
    ((exportWorkbookSheetsToPdf openOk sheets includeHidden outDir stem).bookClosed = true ↔
      (exportWorkbookSheetsToPdf openOk sheets includeHidden outDir stem).raised = false) ∧
    (openOk = true → (∀ s ∈ sheets, s.nameReadOk = true) →
      (exportWorkbookSheetsToPdf openOk sheets includeHidden outDir stem).raised = false ∧
      (exportWorkbookSheetsToPdf openOk sheets includeHidden outDir stem).bookClosed = true) := by
  rw [exportRun_eq]
  cases openOk with
  | false => simp
  | true =>
    cases hr : (loopSheets outDir stem includeHidden sheets).2 with
    | true =>
      simp only [hr, ite_true, if_true]
      refine ⟨by simp, by simp, ?_⟩
      intro _ hall
      have := loopSheets_no_raise outDir stem includeHidden sheets hall
      rw [this] at hr
      cases hr
    | false =>
      simp only [hr, Bool.false_eq_true, ite_false, if_false, ite_true, if_true]
      simp

theorem c8_resource_discipline_w :
    (exportWorkbookSheetsToPdf true
        [⟨"A", true, false, true, true⟩, ⟨"B", false, true, false, true⟩]
        false "o" "b").raised = false ∧
    (exportWorkbookSheetsToPdf true
        [⟨"A", true, false, true, true⟩, ⟨"B", false, true, false, true⟩]
        false "o" "b").bookClosed = true :=
  (c8_resource_discipline true
      [⟨"A", true, false, true, true⟩, ⟨"B", false, true, false, true⟩]
      false "o" "b").2.2 rfl (by decide)
